import Mathlib

/-!
Shallow embedding of the `u0xy/oslog` wrapper library
(`wrapper.c`, `src/os_signpost_wrapper.c`, `src/mod_os_signpost.h`).

The repository is glue code forwarding runtime strings into the Apple
`os_log` / `os_signpost` tracing sink.  We model the external sink by an
environment `SinkEnv` (the channel enabled-predicate, the compiler
builtins `__builtin_os_log_format_buffer_size` / `__builtin_os_log_format`,
the availability of the `_os_signpost_emit_with_name_impl` symbol, and the
`OS_LOG_TARGET_HAS_10_14_FEATURES` build flag), and each C function by a
pure Lean function returning the ordered trace of its observable side
effects together with a flag recording whether the call faulted
(a call through a null function pointer).

Opaque handles (`os_log_t`, `&__dso_handle`) are modelled as `Nat`;
`os_signpost_id_t` is a 64-bit integer modelled as `Nat` with the two
sentinel constants from `os/signpost.h`; string payloads are `String`.
-/

/-- Event kinds of `os_signpost_type_t` (`os/signpost.h`):
`OS_SIGNPOST_EVENT`, `OS_SIGNPOST_INTERVAL_BEGIN`, `OS_SIGNPOST_INTERVAL_END`. -/
inductive SignpostType where
  | event
  | intervalBegin
  | intervalEnd
deriving DecidableEq, Repr

/-- Sentinel `OS_SIGNPOST_ID_NULL` (value `0`, from `os/signpost.h`). -/
def OS_SIGNPOST_ID_NULL : Nat := 0

/-- Sentinel `OS_SIGNPOST_ID_INVALID` (value `~0` on `uint64`, from `os/signpost.h`). -/
def OS_SIGNPOST_ID_INVALID : Nat := 18446744073709551615

/-- Leveled-log type constants of `os_log_type_t` (`os/log.h`). -/
def OS_LOG_TYPE_DEFAULT : Nat := 0

def OS_LOG_TYPE_INFO : Nat := 1

def OS_LOG_TYPE_DEBUG : Nat := 2

def OS_LOG_TYPE_ERROR : Nat := 16

def OS_LOG_TYPE_FAULT : Nat := 17

/-- The process-wide default channel handle `OS_LOG_DEFAULT`, opaque. -/
def OS_LOG_DEFAULT : Nat := 0

/-- The module handle `&__dso_handle`, an opaque per-image constant. -/
def __dso_handle : Nat := 0

/-- One observable side effect of a call into the wrapper library. -/
inductive Effect where
  /-- `printf("%s", s)`: the string `s` written to standard output. -/
  | printed (s : String)
  /-- A call of the sizing primitive `__builtin_os_log_format_buffer_size(fmt, args)`. -/
  | sizeCall (fmt : String) (args : List String)
  /-- A call of the binary encode primitive `__builtin_os_log_format(buf, fmt, args)`. -/
  | encodeCall (fmt : String) (args : List String)
  /-- A record handed to the sink entry point
  `_os_signpost_emit_with_name_impl(dso, log, ty, spid, name, fmt, buf, len)`. -/
  | emitImpl (dso log : Nat) (ty : SignpostType) (spid : Nat)
      (name fmt : String) (buf : List Nat) (len : Nat)
  /-- A record handed to the leveled-logging sink entry point
  `os_log_with_type(log, ty, fmt, msg)` (`os_log_debug` etc. expand to it). -/
  | logWithType (log ty : Nat) (fmt msg : String)
deriving DecidableEq, Repr

/-- Result of a call: its ordered effect trace and whether it faulted
(called a null function pointer). -/
structure Outcome where
  effects : List Effect
  faulted : Bool
deriving DecidableEq, Repr

/-- The external sink and build environment. -/
structure SinkEnv where
  /-- `os_signpost_enabled(log)`: per-channel enabled predicate. -/
  enabled : Nat → Bool
  /-- `__builtin_os_log_format_buffer_size(fmt, args)`: exact byte size of the
  binary log-format buffer for this specifier and argument list. -/
  bufSize : String → List String → Nat
  /-- Contents written by `__builtin_os_log_format(buf, fmt, args)`. -/
  encode : String → List String → List Nat
  /-- Whether the symbol `_os_signpost_emit_with_name_impl` resolves to a
  non-null function pointer at run time. -/
  implAvailable : Bool
  /-- The `OS_LOG_TARGET_HAS_10_14_FEATURES` build-time flag. -/
  has1014 : Bool

/-- A call through the (possibly weak-linked) symbol
`_os_signpost_emit_with_name_impl`: emits one record when the symbol is
non-null, faults when it is null. -/
def _os_signpost_emit_with_name_impl (env : SinkEnv) (dso log : Nat)
    (ty : SignpostType) (spid : Nat) (name fmt : String)
    (buf : List Nat) (len : Nat) : Outcome :=
  if env.implAvailable then
    ⟨[Effect.emitImpl dso log ty spid name fmt buf len], false⟩
  else
    ⟨[], true⟩

/-- `MOD_OS_LOG_CALL_WITH_FORMAT_NAME(fun, fun_args, name, fmt, ...)`
(`mod_os_signpost.h` lines 12-18 and `wrapper.c` lines 46-52):
declares `uint8_t _os_fmt_buf[__builtin_os_log_format_buffer_size(fmt, args)]`,
encodes with `__builtin_os_log_format(_os_fmt_buf, fmt, args)`, and calls
`fun(fun_args..., name, fmt, buf, sizeof(_os_fmt_buf))`, so the length
passed is exactly the sizing primitive's value. -/
def MOD_OS_LOG_CALL_WITH_FORMAT_NAME (env : SinkEnv)
    (fn : Nat → Nat → SignpostType → Nat → String → String → List Nat → Nat → Outcome)
    (dso log : Nat) (ty : SignpostType) (spid : Nat)
    (name fmt : String) (args : List String) : Outcome :=
  let n := env.bufSize fmt args
  let buf := env.encode fmt args
  let r := fn dso log ty spid name fmt buf n
  ⟨Effect.sizeCall fmt args :: Effect.encodeCall fmt args :: r.effects, r.faulted⟩

/-- `_mod_os_signpost_emit_with_type(emitfn, log, type, spid, name, ...)`
(`mod_os_signpost.h` lines 28-40, `wrapper.c` lines 62-74): evaluates the
arguments, and only when `spid != OS_SIGNPOST_ID_NULL`,
`spid != OS_SIGNPOST_ID_INVALID` and `os_signpost_enabled(log)` performs
the size/encode/emit sequence via `MOD_OS_LOG_CALL_WITH_FORMAT_NAME`,
passing `&__dso_handle` in `fun_args`. -/
def _mod_os_signpost_emit_with_type (env : SinkEnv)
    (emitfn : Nat → Nat → SignpostType → Nat → String → String → List Nat → Nat → Outcome)
    (log : Nat) (ty : SignpostType) (spid : Nat)
    (name fmt : String) (args : List String) : Outcome :=
  if spid ≠ OS_SIGNPOST_ID_NULL ∧ spid ≠ OS_SIGNPOST_ID_INVALID ∧
      env.enabled log = true then
    MOD_OS_LOG_CALL_WITH_FORMAT_NAME env emitfn __dso_handle log ty spid name fmt args
  else
    ⟨[], false⟩

/-- `mod_os_signpost_emit_with_type(log, type, spid, name, ...)`
(`mod_os_signpost.h` lines 42-54, `wrapper.c` lines 76-88): on
`OS_LOG_TARGET_HAS_10_14_FEATURES` targets calls
`_mod_os_signpost_emit_with_type` directly with
`_os_signpost_emit_with_name_impl`; otherwise it first checks
`_os_signpost_emit_with_name_impl != NULL` and no-ops when the symbol
is null. -/
def mod_os_signpost_emit_with_type (env : SinkEnv) (log : Nat)
    (ty : SignpostType) (spid : Nat) (name fmt : String)
    (args : List String) : Outcome :=
  if env.has1014 then
    _mod_os_signpost_emit_with_type env (_os_signpost_emit_with_name_impl env)
      log ty spid name fmt args
  else if env.implAvailable then
    _mod_os_signpost_emit_with_type env (_os_signpost_emit_with_name_impl env)
      log ty spid name fmt args
  else
    ⟨[], false⟩

/-- `wrapped_os_signpost_event_emit` (`wrapper.c` lines 93-96 and
`src/os_signpost_wrapper.c` lines 19-22): `printf("%s", format)` then
`mod_os_signpost_emit_with_type(log, OS_SIGNPOST_EVENT, spid, name, "%s", message)`. -/
def wrapped_os_signpost_event_emit (env : SinkEnv) (log spid : Nat)
    (name format message : String) : Outcome :=
  let r := mod_os_signpost_emit_with_type env log SignpostType.event spid name
    ("%s") [message]
  ⟨Effect.printed format :: r.effects, r.faulted⟩

/-- `wrapped_os_signpost_interval_begin` (`src/os_signpost_wrapper.c`
lines 24-27): `printf("%s", format)` then
`mod_os_signpost_emit_with_type(log, OS_SIGNPOST_INTERVAL_BEGIN, spid, name, "%s", message)`. -/
def wrapped_os_signpost_interval_begin (env : SinkEnv) (log spid : Nat)
    (name format message : String) : Outcome :=
  let r := mod_os_signpost_emit_with_type env log SignpostType.intervalBegin spid
    name ("%s") [message]
  ⟨Effect.printed format :: r.effects, r.faulted⟩

/-- `wrapped_os_signpost_interval_end` (`src/os_signpost_wrapper.c`
lines 29-32): `printf("%s", format)` then
`mod_os_signpost_emit_with_type(log, OS_SIGNPOST_INTERVAL_END, spid, name, "%s", message)`. -/
def wrapped_os_signpost_interval_end (env : SinkEnv) (log spid : Nat)
    (name format message : String) : Outcome :=
  let r := mod_os_signpost_emit_with_type env log SignpostType.intervalEnd spid
    name ("%s") [message]
  ⟨Effect.printed format :: r.effects, r.faulted⟩

/-- `va_os_signpost_event_emit_with_type` (`src/os_signpost_wrapper.c`
lines 3-8): sets up `va_list ap` but ignores it, calling
`mod_os_signpost_emit_with_type(log, spty, spid, name, "%s", "hello")`;
the variadic arguments are modelled as `args` and never used. -/
def va_os_signpost_event_emit_with_type (env : SinkEnv) (log : Nat)
    (spty : SignpostType) (spid : Nat) (name : String)
    (args : List String) : Outcome :=
  mod_os_signpost_emit_with_type env log spty spid name ("%s") ["hello"]

/-- The sink entry point `os_log_with_type(log, ty, fmt, msg)`; the leveled
macros `os_log_debug`, `os_log_info`, `os_log`, `os_log_error`,
`os_log_fault` expand to it with the corresponding `OS_LOG_TYPE_*`. -/
def os_log_with_type (log ty : Nat) (fmt msg : String) : List Effect :=
  [Effect.logWithType log ty fmt msg]

/-- `wrapped_get_default_log` (`wrapper.c` lines 10-12): returns `OS_LOG_DEFAULT`. -/
def wrapped_get_default_log : Nat := OS_LOG_DEFAULT

/-- `wrapped_os_log_with_type` (`wrapper.c` lines 14-16):
`os_log_with_type(log, type, "%{public}s", message)`. -/
def wrapped_os_log_with_type (log ty : Nat) (message : String) : List Effect :=
  os_log_with_type log ty ("%{public}s") message

/-- `wrapped_os_log_debug` (`wrapper.c` lines 18-20). -/
def wrapped_os_log_debug (log : Nat) (message : String) : List Effect :=
  os_log_with_type log OS_LOG_TYPE_DEBUG ("%{public}s") message

/-- `wrapped_os_log_info` (`wrapper.c` lines 22-24). -/
def wrapped_os_log_info (log : Nat) (message : String) : List Effect :=
  os_log_with_type log OS_LOG_TYPE_INFO ("%{public}s") message

/-- `wrapped_os_log_default` (`wrapper.c` lines 26-28). -/
def wrapped_os_log_default (log : Nat) (message : String) : List Effect :=
  os_log_with_type log OS_LOG_TYPE_DEFAULT ("%{public}s") message

/-- `wrapped_os_log_error` (`wrapper.c` lines 30-32). -/
def wrapped_os_log_error (log : Nat) (message : String) : List Effect :=
  os_log_with_type log OS_LOG_TYPE_ERROR ("%{public}s") message

/-- `wrapped_os_log_fault` (`wrapper.c` lines 34-36). -/
def wrapped_os_log_fault (log : Nat) (message : String) : List Effect :=
  os_log_with_type log OS_LOG_TYPE_FAULT ("%{public}s") message

/-- Whether an effect is a record handed to the signpost sink entry point. -/
def Effect.isEmitImpl : Effect → Bool
  | .emitImpl _ _ _ _ _ _ _ _ => true
  | _ => false

/-- Whether an effect is a call into one of the sink's size-computation,
encode, or emit primitives. -/
def Effect.isSinkCall : Effect → Bool
  | .sizeCall _ _ => true
  | .encodeCall _ _ => true
  | .emitImpl _ _ _ _ _ _ _ _ => true
  | _ => false

/-- Whether an effect is output written to standard output. -/
def Effect.isPrinted : Effect → Bool
  | .printed _ => true
  | _ => false

/-- A concrete instrumented sink used to instantiate theorems: every channel
enabled, sizing returns `12`, encoding returns `[65, 66]`, symbol available,
10.14 features present. -/
def testEnv : SinkEnv where
  enabled := fun _ => true
  bufSize := fun _ _ => 12
  encode := fun _ _ => [65, 66]
  implAvailable := true
  has1014 := true

/-- A concrete environment for a pre-10.14 target whose
`_os_signpost_emit_with_name_impl` symbol is null. -/
def nullImplEnv : SinkEnv where
  enabled := fun _ => true
  bufSize := fun _ _ => 12
  encode := fun _ _ => [65, 66]
  implAvailable := false
  has1014 := false

/-- A concrete environment whose channels are all disabled. -/
def disabledEnv : SinkEnv where
  enabled := fun _ => false
  bufSize := fun _ _ => 12
  encode := fun _ _ => [65, 66]
  implAvailable := true
  has1014 := true

/-- Case analysis on `mod_os_signpost_emit_with_type`: a call either performs
no work, or performs the size and encode calls and then faults on a null
pointer, or performs the full size/encode/emit sequence. -/
theorem mod_cases (env : SinkEnv) (log : Nat) (ty : SignpostType) (spid : Nat)
    (name fmt : String) (args : List String) :
    mod_os_signpost_emit_with_type env log ty spid name fmt args = ⟨[], false⟩ ∨
    mod_os_signpost_emit_with_type env log ty spid name fmt args =
      ⟨[Effect.sizeCall fmt args, Effect.encodeCall fmt args], true⟩ ∨
    mod_os_signpost_emit_with_type env log ty spid name fmt args =
      ⟨[Effect.sizeCall fmt args, Effect.encodeCall fmt args,
        Effect.emitImpl __dso_handle log ty spid name fmt
          (env.encode fmt args) (env.bufSize fmt args)], false⟩ := by
  unfold mod_os_signpost_emit_with_type _mod_os_signpost_emit_with_type
    MOD_OS_LOG_CALL_WITH_FORMAT_NAME _os_signpost_emit_with_name_impl
  by_cases h14 : env.has1014 <;> by_cases himp : env.implAvailable <;>
    by_cases hc : spid ≠ OS_SIGNPOST_ID_NULL ∧ spid ≠ OS_SIGNPOST_ID_INVALID ∧
      env.enabled log = true <;>
    simp [h14, himp, hc]

/-- Under an enabled channel, a non-sentinel id and an available sink symbol,
`mod_os_signpost_emit_with_type` performs exactly the size/encode/emit
sequence. -/
theorem mod_emit_success (env : SinkEnv) (log : Nat) (ty : SignpostType)
    (spid : Nat) (name fmt : String) (args : List String)
    (h0 : spid ≠ OS_SIGNPOST_ID_NULL) (hi : spid ≠ OS_SIGNPOST_ID_INVALID)
    (hen : env.enabled log = true) (himp : env.implAvailable = true) :
    mod_os_signpost_emit_with_type env log ty spid name fmt args =
      ⟨[Effect.sizeCall fmt args, Effect.encodeCall fmt args,
        Effect.emitImpl __dso_handle log ty spid name fmt
          (env.encode fmt args) (env.bufSize fmt args)], false⟩ := by
  unfold mod_os_signpost_emit_with_type _mod_os_signpost_emit_with_type
    MOD_OS_LOG_CALL_WITH_FORMAT_NAME _os_signpost_emit_with_name_impl
  by_cases h14 : env.has1014 <;> simp [h14, himp, h0, hi, hen]

/-- When the trace id is one of the two sentinels,
`mod_os_signpost_emit_with_type` performs no work. -/
theorem mod_sentinel (env : SinkEnv) (log : Nat) (ty : SignpostType)
    (spid : Nat) (name fmt : String) (args : List String)
    (h : spid = OS_SIGNPOST_ID_NULL ∨ spid = OS_SIGNPOST_ID_INVALID) :
    mod_os_signpost_emit_with_type env log ty spid name fmt args = ⟨[], false⟩ := by
  unfold mod_os_signpost_emit_with_type _mod_os_signpost_emit_with_type
  rcases h with h | h <;> subst h <;>
    by_cases h14 : env.has1014 <;> by_cases himp : env.implAvailable <;>
    simp [h14, himp]

/-- When the channel is disabled, `mod_os_signpost_emit_with_type` performs
no work. -/
theorem mod_disabled (env : SinkEnv) (log : Nat) (ty : SignpostType)
    (spid : Nat) (name fmt : String) (args : List String)
    (h : env.enabled log = false) :
    mod_os_signpost_emit_with_type env log ty spid name fmt args = ⟨[], false⟩ := by
  unfold mod_os_signpost_emit_with_type _mod_os_signpost_emit_with_type
  by_cases h14 : env.has1014 <;> by_cases himp : env.implAvailable <;>
    simp [h14, himp, h]

/-- On a pre-10.14 target with a null sink symbol,
`mod_os_signpost_emit_with_type` performs no work and does not fault. -/
theorem mod_null_impl (env : SinkEnv) (log : Nat) (ty : SignpostType)
    (spid : Nat) (name fmt : String) (args : List String)
    (h14 : env.has1014 = false) (hnull : env.implAvailable = false) :
    mod_os_signpost_emit_with_type env log ty spid name fmt args = ⟨[], false⟩ := by
  unfold mod_os_signpost_emit_with_type
  simp [h14, hnull]

/-- No effect of `mod_os_signpost_emit_with_type` is standard output. -/
theorem mod_no_printed (env : SinkEnv) (log : Nat) (ty : SignpostType)
    (spid : Nat) (name fmt : String) (args : List String) :
    (mod_os_signpost_emit_with_type env log ty spid name fmt args).effects.filter
      Effect.isPrinted = [] := by
  rcases mod_cases env log ty spid name fmt args with h | h | h <;>
    rw [h] <;> simp [Effect.isPrinted]

/-- C1: For every call to `wrapped_os_signpost_event_emit`,
`wrapped_os_signpost_interval_begin`, or `wrapped_os_signpost_interval_end`
with an enabled channel and a trace id that is neither sentinel (the sink
entry point being available), exactly one record is handed to the external
sink; its event kind matches the operation invoked (event emit gives
POINT EVENT, interval begin gives INTERVAL BEGIN, interval end gives
INTERVAL END), and it carries the given trace id, name, and the encoding of
the given message as its single formatted field under the `"%s"` specifier. -/
theorem wrapped_emit_ops_hand_one_matching_record (env : SinkEnv)
    (log spid : Nat) (name format message : String)
    (h0 : spid ≠ OS_SIGNPOST_ID_NULL) (hi : spid ≠ OS_SIGNPOST_ID_INVALID)
    (hen : env.enabled log = true) (himp : env.implAvailable = true) :
    (wrapped_os_signpost_event_emit env log spid name format message).effects.filter
        Effect.isEmitImpl =
      [Effect.emitImpl __dso_handle log SignpostType.event spid name ("%s")
        (env.encode ("%s") [message]) (env.bufSize ("%s") [message])] ∧
    (wrapped_os_signpost_interval_begin env log spid name format message).effects.filter
        Effect.isEmitImpl =
      [Effect.emitImpl __dso_handle log SignpostType.intervalBegin spid name ("%s")
        (env.encode ("%s") [message]) (env.bufSize ("%s") [message])] ∧
    (wrapped_os_signpost_interval_end env log spid name format message).effects.filter
        Effect.isEmitImpl =
      [Effect.emitImpl __dso_handle log SignpostType.intervalEnd spid name ("%s")
        (env.encode ("%s") [message]) (env.bufSize ("%s") [message])] := by
  refine ⟨?_, ?_, ?_⟩ <;>
    simp [wrapped_os_signpost_event_emit, wrapped_os_signpost_interval_begin,
      wrapped_os_signpost_interval_end,
      mod_emit_success env log _ spid name _ _ h0 hi hen himp,
      Effect.isEmitImpl]

/-- Witness for C1 at a concrete enabled environment. -/
theorem wrapped_emit_ops_hand_one_matching_record_witness :
    (wrapped_os_signpost_event_emit testEnv 3 5 "n" "f" "m").effects.filter
        Effect.isEmitImpl =
      [Effect.emitImpl __dso_handle 3 SignpostType.event 5 "n" ("%s")
        (testEnv.encode ("%s") ["m"]) (testEnv.bufSize ("%s") ["m"])] ∧
    (wrapped_os_signpost_interval_begin testEnv 3 5 "n" "f" "m").effects.filter
        Effect.isEmitImpl =
      [Effect.emitImpl __dso_handle 3 SignpostType.intervalBegin 5 "n" ("%s")
        (testEnv.encode ("%s") ["m"]) (testEnv.bufSize ("%s") ["m"])] ∧
    (wrapped_os_signpost_interval_end testEnv 3 5 "n" "f" "m").effects.filter
        Effect.isEmitImpl =
      [Effect.emitImpl __dso_handle 3 SignpostType.intervalEnd 5 "n" ("%s")
        (testEnv.encode ("%s") ["m"]) (testEnv.bufSize ("%s") ["m"])] :=
  wrapped_emit_ops_hand_one_matching_record testEnv 3 5 "n" "f" "m"
    (by decide) (by decide) rfl rfl

/-- C2: For every trace id equal to either reserved sentinel
(`OS_SIGNPOST_ID_NULL` or `OS_SIGNPOST_ID_INVALID`), every emit operation
hands no record to the sink, whatever the channel's enabled state and the
rest of the environment. -/
theorem sentinel_id_suppresses_emission (env : SinkEnv) (log spid : Nat)
    (name format message : String)
    (h : spid = OS_SIGNPOST_ID_NULL ∨ spid = OS_SIGNPOST_ID_INVALID) :
    (wrapped_os_signpost_event_emit env log spid name format message).effects.filter
        Effect.isEmitImpl = [] ∧
    (wrapped_os_signpost_interval_begin env log spid name format message).effects.filter
        Effect.isEmitImpl = [] ∧
    (wrapped_os_signpost_interval_end env log spid name format message).effects.filter
        Effect.isEmitImpl = [] := by
  refine ⟨?_, ?_, ?_⟩ <;>
    simp [wrapped_os_signpost_event_emit, wrapped_os_signpost_interval_begin,
      wrapped_os_signpost_interval_end,
      mod_sentinel env log _ spid name _ _ h, Effect.isEmitImpl]

/-- Witness for C2 at the `OS_SIGNPOST_ID_NULL` sentinel on an enabled channel. -/
theorem sentinel_id_suppresses_emission_witness :
    (wrapped_os_signpost_event_emit testEnv 3 OS_SIGNPOST_ID_NULL "n" "f" "m").effects.filter
        Effect.isEmitImpl = [] ∧
    (wrapped_os_signpost_interval_begin testEnv 3 OS_SIGNPOST_ID_NULL "n" "f" "m").effects.filter
        Effect.isEmitImpl = [] ∧
    (wrapped_os_signpost_interval_end testEnv 3 OS_SIGNPOST_ID_NULL "n" "f" "m").effects.filter
        Effect.isEmitImpl = [] :=
  sentinel_id_suppresses_emission testEnv 3 OS_SIGNPOST_ID_NULL "n" "f" "m" (Or.inl rfl)

/-- C3: For every message, calling `wrapped_os_signpost_event_emit` on a
channel for which tracing is disabled produces zero calls into the sink's
size-computation, encode, and emit primitives. -/
theorem disabled_channel_no_sink_primitive_calls (env : SinkEnv)
    (log spid : Nat) (name format message : String)
    (h : env.enabled log = false) :
    (wrapped_os_signpost_event_emit env log spid name format message).effects.filter
      Effect.isSinkCall = [] := by
  simp [wrapped_os_signpost_event_emit,
    mod_disabled env log SignpostType.event spid name _ _ h, Effect.isSinkCall]

/-- Witness for C3 at a concrete disabled environment. -/
theorem disabled_channel_no_sink_primitive_calls_witness :
    (wrapped_os_signpost_event_emit disabledEnv 3 5 "n" "f" "m").effects.filter
      Effect.isSinkCall = [] :=
  disabled_channel_no_sink_primitive_calls disabledEnv 3 5 "n" "f" "m" rfl

/-- C4, divergence witness: the claim says a call whose fast-path check
fails (sentinel trace id here) performs no observable side effect of any
kind, but `wrapped_os_signpost_event_emit` runs `printf("%s", format)`
before the check, so the call writes the `format` string to standard
output even though emission is suppressed. -/
theorem fastpath_failure_still_prints_format :
    (wrapped_os_signpost_event_emit testEnv 7 OS_SIGNPOST_ID_NULL "n" "FMT" "m").effects
      = [Effect.printed "FMT"] := by
  decide

/-- C5: For every emission that reaches the sink, the buffer length passed
to the sink's emit entry point equals the value returned by the sink's
buffer-size computation primitive for the same format specifier and
message, and the buffer itself is the encoding of that specifier and
message. -/
theorem sink_emit_length_matches_sizing (env : SinkEnv) (log spid : Nat)
    (name format message : String) :
    (∀ e ∈ (wrapped_os_signpost_event_emit env log spid name format message).effects,
      ∀ dso l ty s nm f2 buf len, e = Effect.emitImpl dso l ty s nm f2 buf len →
        len = env.bufSize f2 [message] ∧ buf = env.encode f2 [message]) ∧
    (∀ e ∈ (wrapped_os_signpost_interval_begin env log spid name format message).effects,
      ∀ dso l ty s nm f2 buf len, e = Effect.emitImpl dso l ty s nm f2 buf len →
        len = env.bufSize f2 [message] ∧ buf = env.encode f2 [message]) ∧
    (∀ e ∈ (wrapped_os_signpost_interval_end env log spid name format message).effects,
      ∀ dso l ty s nm f2 buf len, e = Effect.emitImpl dso l ty s nm f2 buf len →
        len = env.bufSize f2 [message] ∧ buf = env.encode f2 [message]) := by
  refine ⟨?_, ?_, ?_⟩ <;>
  · intro e he dso l ty s nm f2 buf len hee
    subst hee
    simp only [wrapped_os_signpost_event_emit, wrapped_os_signpost_interval_begin,
      wrapped_os_signpost_interval_end] at he
    rcases mod_cases env log SignpostType.event spid name ("%s") [message] with
        h | h | h <;>
      rcases mod_cases env log SignpostType.intervalBegin spid name ("%s") [message] with
        h2 | h2 | h2 <;>
      rcases mod_cases env log SignpostType.intervalEnd spid name ("%s") [message] with
        h3 | h3 | h3 <;>
      simp [h, h2, h3] at he <;>
      obtain ⟨-, -, -, -, -, hf, hb, hl⟩ := he <;> subst hf <;>
      exact ⟨hl, hb⟩

/-- Witness for C5: the record emitted in the concrete environment carries
length `12` and buffer `[65, 66]`, the sizing and encoding values of
`testEnv` at the `"%s"` specifier and message `"m"`. -/
theorem sink_emit_length_matches_sizing_witness :
    12 = testEnv.bufSize ("%s") ["m"] ∧ [65, 66] = testEnv.encode ("%s") ["m"] :=
  (sink_emit_length_matches_sizing testEnv 3 5 "n" "f" "m").1
    (Effect.emitImpl __dso_handle 3 SignpostType.event 5 "n" ("%s") [65, 66] 12)
    (by decide) __dso_handle 3 SignpostType.event 5 "n" ("%s") [65, 66] 12 rfl

/-- C6, counterexample: the claim says the leveled wrappers use a fixed
`"%s"` format specifier, but `wrapped_os_log_debug` hands the sink the
specifier `"%{public}s"`, not `"%s"`, as evaluated at channel `0` and
message `"m"`. -/
theorem leveled_wrapper_specifier_not_plain_s :
    wrapped_os_log_debug 0 "m" ≠
      [Effect.logWithType 0 OS_LOG_TYPE_DEBUG ("%s") "m"] ∧
    wrapped_os_log_debug 0 "m" =
      [Effect.logWithType 0 OS_LOG_TYPE_DEBUG ("%{public}s") "m"] := by
  constructor
  · decide
  · rfl

/-- C6, amended: every leveled-logging wrapper (`wrapped_os_log_debug`,
`_info`, `_default`, `_error`, `_fault`, and `wrapped_os_log_with_type`)
passes the caller's message to the corresponding sink entry point as the
entire payload under the fixed `"%{public}s"` format specifier. -/
theorem leveled_wrappers_pass_message_under_fixed_specifier
    (log ty : Nat) (message : String) :
    wrapped_os_log_with_type log ty message =
      [Effect.logWithType log ty ("%{public}s") message] ∧
    wrapped_os_log_debug log message =
      [Effect.logWithType log OS_LOG_TYPE_DEBUG ("%{public}s") message] ∧
    wrapped_os_log_info log message =
      [Effect.logWithType log OS_LOG_TYPE_INFO ("%{public}s") message] ∧
    wrapped_os_log_default log message =
      [Effect.logWithType log OS_LOG_TYPE_DEFAULT ("%{public}s") message] ∧
    wrapped_os_log_error log message =
      [Effect.logWithType log OS_LOG_TYPE_ERROR ("%{public}s") message] ∧
    wrapped_os_log_fault log message =
      [Effect.logWithType log OS_LOG_TYPE_FAULT ("%{public}s") message] :=
  ⟨rfl, rfl, rfl, rfl, rfl, rfl⟩

/-- C7: On a target without the 10.14 entry point, when
`_os_signpost_emit_with_name_impl` resolves to a null function pointer,
every emit operation hands nothing to the sink and does not fault,
whatever the channel state and trace id. -/
theorem null_impl_silent_noop (env : SinkEnv) (log spid : Nat)
    (name format message : String)
    (h14 : env.has1014 = false) (hnull : env.implAvailable = false) :
    ((wrapped_os_signpost_event_emit env log spid name format message).effects.filter
        Effect.isEmitImpl = [] ∧
      (wrapped_os_signpost_event_emit env log spid name format message).faulted = false) ∧
    ((wrapped_os_signpost_interval_begin env log spid name format message).effects.filter
        Effect.isEmitImpl = [] ∧
      (wrapped_os_signpost_interval_begin env log spid name format message).faulted = false) ∧
    ((wrapped_os_signpost_interval_end env log spid name format message).effects.filter
        Effect.isEmitImpl = [] ∧
      (wrapped_os_signpost_interval_end env log spid name format message).faulted = false) := by
  refine ⟨⟨?_, ?_⟩, ⟨?_, ?_⟩, ⟨?_, ?_⟩⟩ <;>
    simp [wrapped_os_signpost_event_emit, wrapped_os_signpost_interval_begin,
      wrapped_os_signpost_interval_end,
      mod_null_impl env log _ spid name _ _ h14 hnull, Effect.isEmitImpl]

/-- Witness for C7 at a concrete null-symbol environment with an enabled
channel and a valid trace id. -/
theorem null_impl_silent_noop_witness :
    ((wrapped_os_signpost_event_emit nullImplEnv 3 5 "n" "f" "m").effects.filter
        Effect.isEmitImpl = [] ∧
      (wrapped_os_signpost_event_emit nullImplEnv 3 5 "n" "f" "m").faulted = false) ∧
    ((wrapped_os_signpost_interval_begin nullImplEnv 3 5 "n" "f" "m").effects.filter
        Effect.isEmitImpl = [] ∧
      (wrapped_os_signpost_interval_begin nullImplEnv 3 5 "n" "f" "m").faulted = false) ∧
    ((wrapped_os_signpost_interval_end nullImplEnv 3 5 "n" "f" "m").effects.filter
        Effect.isEmitImpl = [] ∧
      (wrapped_os_signpost_interval_end nullImplEnv 3 5 "n" "f" "m").faulted = false) :=
  null_impl_silent_noop nullImplEnv 3 5 "n" "f" "m" rfl rfl

/-- C8: No operation mutates its inputs; the model is a pure function of
them, and every record handed to the sink carries the given channel
handle, trace id, and name verbatim, with the payload being exactly the
encoding of the given message; each leveled wrapper likewise hands the
sink its channel and message verbatim. -/
theorem entities_passed_through_unchanged (env : SinkEnv) (log spid : Nat)
    (name format message : String) :
    (∀ e ∈ (wrapped_os_signpost_event_emit env log spid name format message).effects,
      ∀ dso l ty s nm f2 buf len, e = Effect.emitImpl dso l ty s nm f2 buf len →
        l = log ∧ s = spid ∧ nm = name ∧ buf = env.encode f2 [message]) ∧
    (∀ e ∈ (wrapped_os_signpost_interval_begin env log spid name format message).effects,
      ∀ dso l ty s nm f2 buf len, e = Effect.emitImpl dso l ty s nm f2 buf len →
        l = log ∧ s = spid ∧ nm = name ∧ buf = env.encode f2 [message]) ∧
    (∀ e ∈ (wrapped_os_signpost_interval_end env log spid name format message).effects,
      ∀ dso l ty s nm f2 buf len, e = Effect.emitImpl dso l ty s nm f2 buf len →
        l = log ∧ s = spid ∧ nm = name ∧ buf = env.encode f2 [message]) ∧
    (∀ ty, wrapped_os_log_with_type log ty message =
      [Effect.logWithType log ty ("%{public}s") message]) ∧
    wrapped_os_log_debug log message =
      [Effect.logWithType log OS_LOG_TYPE_DEBUG ("%{public}s") message] ∧
    wrapped_os_log_info log message =
      [Effect.logWithType log OS_LOG_TYPE_INFO ("%{public}s") message] ∧
    wrapped_os_log_default log message =
      [Effect.logWithType log OS_LOG_TYPE_DEFAULT ("%{public}s") message] ∧
    wrapped_os_log_error log message =
      [Effect.logWithType log OS_LOG_TYPE_ERROR ("%{public}s") message] ∧
    wrapped_os_log_fault log message =
      [Effect.logWithType log OS_LOG_TYPE_FAULT ("%{public}s") message] := by
  refine ⟨?_, ?_, ?_, fun ty => rfl, rfl, rfl, rfl, rfl, rfl⟩ <;>
  · intro e he dso l ty s nm f2 buf len hee
    subst hee
    simp only [wrapped_os_signpost_event_emit, wrapped_os_signpost_interval_begin,
      wrapped_os_signpost_interval_end] at he
    rcases mod_cases env log SignpostType.event spid name ("%s") [message] with
        h | h | h <;>
      rcases mod_cases env log SignpostType.intervalBegin spid name ("%s") [message] with
        h2 | h2 | h2 <;>
      rcases mod_cases env log SignpostType.intervalEnd spid name ("%s") [message] with
        h3 | h3 | h3 <;>
      simp [h, h2, h3] at he <;>
      obtain ⟨-, hlog, -, hspid, hname, hf, hb, -⟩ := he <;> subst hf <;>
      exact ⟨hlog, hspid, hname, hb⟩

/-- Witness for C8: the record of a concrete call carries channel `4`,
trace id `9`, and name `"nm"` unchanged, with buffer `[65, 66]` equal to
the environment's encoding of the message. -/
theorem entities_passed_through_unchanged_witness :
    4 = 4 ∧ 9 = 9 ∧ "nm" = "nm" ∧ [65, 66] = testEnv.encode ("%s") ["msg"] :=
  (entities_passed_through_unchanged testEnv 4 9 "nm" "f" "msg").1
    (Effect.emitImpl __dso_handle 4 SignpostType.event 9 "nm" ("%s") [65, 66] 12)
    (by decide) __dso_handle 4 SignpostType.event 9 "nm" ("%s") [65, 66] 12 rfl

/-- C9: Two calls to any of the three signpost wrappers that differ only in
the `format` parameter produce identical sink-bound effects (the size,
encode, and emit calls) and identical fault status; the `format` parameter
reaches only standard output, as the sole printed effect. -/
theorem format_does_not_influence_sink_record (env : SinkEnv) (log spid : Nat)
    (name f1 f2 message : String) :
    ((wrapped_os_signpost_event_emit env log spid name f1 message).effects.filter
        (fun e => !e.isPrinted) =
      (wrapped_os_signpost_event_emit env log spid name f2 message).effects.filter
        (fun e => !e.isPrinted) ∧
      (wrapped_os_signpost_event_emit env log spid name f1 message).faulted =
        (wrapped_os_signpost_event_emit env log spid name f2 message).faulted ∧
      (wrapped_os_signpost_event_emit env log spid name f1 message).effects.filter
        Effect.isPrinted = [Effect.printed f1]) ∧
    ((wrapped_os_signpost_interval_begin env log spid name f1 message).effects.filter
        (fun e => !e.isPrinted) =
      (wrapped_os_signpost_interval_begin env log spid name f2 message).effects.filter
        (fun e => !e.isPrinted) ∧
      (wrapped_os_signpost_interval_begin env log spid name f1 message).faulted =
        (wrapped_os_signpost_interval_begin env log spid name f2 message).faulted ∧
      (wrapped_os_signpost_interval_begin env log spid name f1 message).effects.filter
        Effect.isPrinted = [Effect.printed f1]) ∧
    ((wrapped_os_signpost_interval_end env log spid name f1 message).effects.filter
        (fun e => !e.isPrinted) =
      (wrapped_os_signpost_interval_end env log spid name f2 message).effects.filter
        (fun e => !e.isPrinted) ∧
      (wrapped_os_signpost_interval_end env log spid name f1 message).faulted =
        (wrapped_os_signpost_interval_end env log spid name f2 message).faulted ∧
      (wrapped_os_signpost_interval_end env log spid name f1 message).effects.filter
        Effect.isPrinted = [Effect.printed f1]) := by
  refine ⟨⟨?_, rfl, ?_⟩, ⟨?_, rfl, ?_⟩, ⟨?_, rfl, ?_⟩⟩ <;>
    simp [wrapped_os_signpost_event_emit, wrapped_os_signpost_interval_begin,
      wrapped_os_signpost_interval_end, Effect.isPrinted, mod_no_printed]

/-- C10: With an enabled channel, a non-sentinel trace id, and an available
sink symbol, `va_os_signpost_event_emit_with_type` hands the sink exactly
one record whose formatted field is the encoding of the constant string
`"hello"`, and its variadic arguments have no effect on the outcome. -/
theorem va_emit_sends_constant_hello (env : SinkEnv) (log : Nat)
    (spty : SignpostType) (spid : Nat) (name : String)
    (args1 args2 : List String)
    (h0 : spid ≠ OS_SIGNPOST_ID_NULL) (hi : spid ≠ OS_SIGNPOST_ID_INVALID)
    (hen : env.enabled log = true) (himp : env.implAvailable = true) :
    (va_os_signpost_event_emit_with_type env log spty spid name args1).effects.filter
        Effect.isEmitImpl =
      [Effect.emitImpl __dso_handle log spty spid name ("%s")
        (env.encode ("%s") ["hello"]) (env.bufSize ("%s") ["hello"])] ∧
    va_os_signpost_event_emit_with_type env log spty spid name args1 =
      va_os_signpost_event_emit_with_type env log spty spid name args2 := by
  constructor
  · simp [va_os_signpost_event_emit_with_type,
      mod_emit_success env log spty spid name _ _ h0 hi hen himp, Effect.isEmitImpl]
  · rfl

/-- Witness for C10 at a concrete enabled environment and two distinct
variadic argument lists. -/
theorem va_emit_sends_constant_hello_witness :
    (va_os_signpost_event_emit_with_type testEnv 3 SignpostType.event 5 "n"
        ["a", "b"]).effects.filter Effect.isEmitImpl =
      [Effect.emitImpl __dso_handle 3 SignpostType.event 5 "n" ("%s")
        (testEnv.encode ("%s") ["hello"]) (testEnv.bufSize ("%s") ["hello"])] ∧
    va_os_signpost_event_emit_with_type testEnv 3 SignpostType.event 5 "n" ["a", "b"] =
      va_os_signpost_event_emit_with_type testEnv 3 SignpostType.event 5 "n" [] :=
  va_emit_sends_constant_hello testEnv 3 SignpostType.event 5 "n" ["a", "b"] []
    (by decide) (by decide) rfl rfl
